import Mathlib

/-!
# Verification of the client-side OLS sales-prediction engine

Shallow embedding of `src/frontend/src/lib/model.ts`: a client-side
ordinary-least-squares trainer for the advertising dataset, plus the
model cache, prediction service, metrics evaluator and artifact adapter.

Conventions of the embedding:
* JavaScript numbers are modelled exactly: finite values are rationals
  (`ℚ`), and the special values `NaN`, `Infinity`, `-Infinity` are
  explicit constructors of `JsNum`.  IEEE-754 rounding is not modelled
  (arithmetic on finite values is exact).
* `Math.sqrt` leaves `ℚ`; its results are represented symbolically by
  the `JsNum.sqrtScaled c q` constructor, denoting the real `c·√q`.
  No verified property inspects the magnitude of a square root.
* The mutable module-level `model` variable is passed explicitly as an
  `Option Model` cache state; `throw` is modelled with `Except`/`Option`.
* `fetch` results are passed as parameters (`none` = network failure,
  non-ok response, or unparsable body).
-/

/-- A JavaScript runtime number: `NaN`, `±Infinity`, a finite rational,
or the symbolic value `c·√q` produced by `Math.sqrt` (which leaves ℚ). -/
inductive JsNum where
  | nan : JsNum
  | posInf : JsNum
  | negInf : JsNum
  | fin : ℚ → JsNum
  | sqrtScaled : ℚ → ℚ → JsNum
  deriving DecidableEq, Repr

namespace JsNum

/-- `Number.isNaN`. -/
def isNaN : JsNum → Bool
  | nan => true
  | _ => false

/-- `Number.isFinite`: true exactly on finite values. -/
def isFinite : JsNum → Bool
  | fin _ => true
  | sqrtScaled _ _ => true
  | _ => false

/-- JavaScript subtraction, for the combinations arising in `r2 = 1 - ssRes/ssTot`. -/
def jsSub : JsNum → JsNum → JsNum
  | fin a, fin b => fin (a - b)
  | fin _, posInf => negInf
  | fin _, negInf => posInf
  | posInf, fin _ => posInf
  | negInf, fin _ => negInf
  | posInf, negInf => posInf
  | negInf, posInf => negInf
  | _, _ => nan

/-- JavaScript division restricted to finite operands: `a / 0` is `NaN`
when `a = 0` and `±Infinity` otherwise, matching IEEE semantics. -/
def jsDivFin (a b : ℚ) : JsNum :=
  if b = 0 then
    if a = 0 then nan else if 0 < a then posInf else negInf
  else fin (a / b)

/-- `Math.sqrt` on a finite rational: negative radicand gives `NaN`,
zero gives `0`, and a positive radicand is represented symbolically. -/
def jsSqrtFin (q : ℚ) : JsNum :=
  if q < 0 then nan else if q = 0 then fin 0 else sqrtScaled 1 q

/-- Multiply a `Math.sqrt` result (or finite value) by a finite rational. -/
def jsMulFin : JsNum → ℚ → JsNum
  | fin a, c => fin (a * c)
  | sqrtScaled k q, c => if c = 0 then fin 0 else sqrtScaled (k * c) q
  | nan, _ => nan
  | posInf, c => if c = 0 then nan else if 0 < c then posInf else negInf
  | negInf, c => if c = 0 then nan else if 0 < c then negInf else posInf

/-- Divide by a non-zero finite rational (`rmse / meanY`, guarded by
`meanY !== 0` in the source). -/
def jsDivByFin : JsNum → ℚ → JsNum
  | fin a, c => fin (a / c)
  | sqrtScaled k q, c => sqrtScaled (k / c) q
  | nan, _ => nan
  | posInf, c => if 0 < c then posInf else negInf
  | negInf, c => if 0 < c then negInf else posInf

/-- JavaScript truthiness of a number: `0` and `NaN` are falsy. -/
def truthy : JsNum → Bool
  | fin q => q ≠ 0
  | nan => false
  | posInf => true
  | negInf => true
  | sqrtScaled c q => c ≠ 0 && q ≠ 0

end JsNum

/-! ## `parseFloat`

The source parses each CSV field with `parseFloat`.  We model its
specified behaviour over exact rationals: skip leading whitespace, an
optional sign, then the longest prefix that is `Infinity`, or decimal
digits with an optional fraction and exponent; `NaN` when no prefix
parses.  (Double rounding/overflow is not modelled: literals denote
their exact rational value.) -/

/-- Value of a list of decimal digit characters, most significant first. -/
def digitsVal (cs : List Char) : ℚ :=
  cs.foldl (fun acc c => acc * 10 + (c.toNat - '0'.toNat : ℕ)) 0

/-- Parse an optional exponent part `e`/`E` followed by an optionally
signed digit string; returns the exponent (as an integer) and the rest.
A bare `e` with no digits is not consumed (longest *valid* prefix). -/
def parseExponent (cs : List Char) : ℤ :=
  match cs with
  | 'e' :: rest | 'E' :: rest =>
    match rest with
    | '+' :: ds => if (ds.takeWhile Char.isDigit) = [] then 0
        else ((digitsVal (ds.takeWhile Char.isDigit)).num)
    | '-' :: ds => if (ds.takeWhile Char.isDigit) = [] then 0
        else (-(digitsVal (ds.takeWhile Char.isDigit)).num)
    | ds => if (ds.takeWhile Char.isDigit) = [] then 0
        else ((digitsVal (ds.takeWhile Char.isDigit)).num)
  | _ => 0

/-- Parse the unsigned mantissa+exponent part after sign stripping;
`none` when no valid numeric prefix exists. -/
def parseMantissa (cs : List Char) : Option ℚ :=
  let intDigits := cs.takeWhile Char.isDigit
  let rest1 := cs.dropWhile Char.isDigit
  let fracDigits :=
    match rest1 with
    | '.' :: t => t.takeWhile Char.isDigit
    | _ => []
  let rest2 :=
    match rest1 with
    | '.' :: t => t.dropWhile Char.isDigit
    | _ => rest1
  if intDigits = [] ∧ fracDigits = [] then none
  else
    let mant : ℚ := digitsVal intDigits + digitsVal fracDigits / (10 : ℚ) ^ fracDigits.length
    let e := parseExponent rest2
    some (mant * (10 : ℚ) ^ e)

/-- JavaScript `parseFloat` on a list of characters. -/
def parseFloatChars (cs0 : List Char) : JsNum :=
  let cs := cs0.dropWhile Char.isWhitespace
  let (sign, cs) : ℚ × List Char :=
    match cs with
    | '-' :: t => (-1, t)
    | '+' :: t => (1, t)
    | t => (1, t)
  if "Infinity".data.isPrefixOf cs then
    if sign = 1 then .posInf else .negInf
  else
    match parseMantissa cs with
    | none => .nan
    | some q => .fin (sign * q)

/-- JavaScript `parseFloat` on a string. -/
def parseFloat (s : String) : JsNum :=
  parseFloatChars s.data

/-! ## `Number(...)` coercion

The artifact-adoption path applies `Number(...)` to JSON fields.  We
model the coercion for primitives; `Number` on arrays/objects (which
goes through `toPrimitive`) is collapsed to `NaN` — no modelled code
path reaches it with a non-primitive operand. -/

/-- Parse the unsigned numeric literal at the head of `cs`, returning
the value and the unconsumed remainder (`none`: no valid prefix). -/
def parseNumericPrefix (cs : List Char) : Option (ℚ × List Char) :=
  let intDigits := cs.takeWhile Char.isDigit
  let rest1 := cs.dropWhile Char.isDigit
  let fracDigits :=
    match rest1 with
    | '.' :: t => t.takeWhile Char.isDigit
    | _ => []
  let rest2 :=
    match rest1 with
    | '.' :: t => t.dropWhile Char.isDigit
    | _ => rest1
  if intDigits = [] ∧ fracDigits = [] then none
  else
    let mant : ℚ := digitsVal intDigits + digitsVal fracDigits / (10 : ℚ) ^ fracDigits.length
    let rest3 :=
      match rest2 with
      | 'e' :: '+' :: ds | 'E' :: '+' :: ds | 'e' :: '-' :: ds | 'E' :: '-' :: ds =>
        if (ds.takeWhile Char.isDigit) = [] then rest2 else ds.dropWhile Char.isDigit
      | 'e' :: ds | 'E' :: ds =>
        if (ds.takeWhile Char.isDigit) = [] then rest2 else ds.dropWhile Char.isDigit
      | _ => rest2
    some (mant * (10 : ℚ) ^ parseExponent rest2, rest3)

/-- Whitespace trim on character lists (the model of `trim()`). -/
def trimChars (cs : List Char) : List Char :=
  ((cs.dropWhile Char.isWhitespace).reverse.dropWhile Char.isWhitespace).reverse

/-- `Number(s)` for a string: trimmed-empty is `0`; otherwise the whole
trimmed string must be a signed numeric literal or `Infinity`. -/
def numberFromString (s : String) : JsNum :=
  let cs := trimChars s.data
  if cs = [] then .fin 0
  else
    let (sign, cs2) : ℚ × List Char :=
      match cs with
      | '-' :: t => (-1, t)
      | '+' :: t => (1, t)
      | t => (1, t)
    if cs2 = "Infinity".data then (if sign = 1 then .posInf else .negInf)
    else
      match parseNumericPrefix cs2 with
      | some (q, []) => .fin (sign * q)
      | _ => .nan

/-! ## JSON / JavaScript values -/

/-- A JSON-decodable JavaScript value (`undefined` is modelled as the
`none` of an `Option JsVal` at access sites). -/
inductive JsVal where
  | null : JsVal
  | boolV : Bool → JsVal
  | num : JsNum → JsVal
  | strV : String → JsVal
  | arr : List JsVal → JsVal
  | obj : List (String × JsVal) → JsVal

/-- Property access `v[k]`: defined for objects, `undefined` otherwise
(accessing a property of `null`/`undefined` throws and is handled at
call sites). -/
def jsGet : JsVal → String → Option JsVal
  | .obj fields, k => fields.lookup k
  | _, _ => none

/-- JavaScript truthiness. -/
def jsTruthy : JsVal → Bool
  | .null => false
  | .boolV b => b
  | .num x => x.truthy
  | .strV s => s ≠ ""
  | .arr _ => true
  | .obj _ => true

/-- Truthiness of a possibly-`undefined` value. -/
def jsTruthyOpt : Option JsVal → Bool
  | none => false
  | some v => jsTruthy v

/-- `undefined` or `null`. -/
def isNullish : Option JsVal → Bool
  | none => true
  | some .null => true
  | _ => false

/-- The `??` nullish-coalescing operator. -/
def jsCoalesce (a b : Option JsVal) : Option JsVal :=
  if isNullish a then b else a

/-- `Number(v)` coercion (primitives; see module comment above). -/
def jsToNumber : Option JsVal → JsNum
  | none => .nan
  | some .null => .fin 0
  | some (.boolV b) => .fin (if b then 1 else 0)
  | some (.num x) => x
  | some (.strV s) => numberFromString s
  | some (.arr _) => .nan
  | some (.obj _) => .nan

/-- Index access `base[i]`.  Outer `none` means a thrown `TypeError`
(indexing `null`/`undefined`); inner `none` means `undefined`. -/
def jsIndex (base : Option JsVal) (i : ℕ) : Option (Option JsVal) :=
  match base with
  | none => none
  | some .null => none
  | some (.arr xs) => some (xs.get? i)
  | some _ => some none

/-! ## Data model: `Metrics` and `Model`

Mirrors the TypeScript `Model` type.  `Option` fields collapse the
TS `null`/`undefined` distinction (never observable in this code). -/

/-- The `metrics` record of a model (`r2`..`rel_rmse_pct` declared
`number | null`; `precision`/`recall`/`f1` optional). -/
structure Metrics where
  r2 : Option JsNum
  rmse : Option JsNum
  mae : Option JsNum
  meanSales : Option JsNum
  rel_rmse_pct : Option JsNum
  precision : Option JsNum
  «recall» : Option JsNum
  f1 : Option JsNum
  deriving DecidableEq, Repr

/-- The cached model: intercept, per-channel coefficients, historical
channel-spend shares, and optional metrics. -/
structure Model where
  intercept : JsNum
  betas : JsNum × JsNum × JsNum
  channelShares : JsNum × JsNum × JsNum
  metrics : Option Metrics
  deriving DecidableEq, Repr

/-! ## JavaScript arithmetic on `JsNum`

Binary operations as needed by the metrics evaluator, which may score a
model whose coefficients are `NaN`/`±Infinity` (adopted from a malformed
artifact).  `sqrtScaled` values occur only in finished metrics records
and never re-enter arithmetic; those cases are mapped to `NaN`. -/

/-- JavaScript addition. -/
def jsAdd : JsNum → JsNum → JsNum
  | .fin a, .fin b => .fin (a + b)
  | .posInf, .negInf => .nan
  | .negInf, .posInf => .nan
  | .posInf, .posInf => .posInf
  | .negInf, .negInf => .negInf
  | .posInf, .fin _ => .posInf
  | .fin _, .posInf => .posInf
  | .negInf, .fin _ => .negInf
  | .fin _, .negInf => .negInf
  | _, _ => .nan

/-- JavaScript multiplication. -/
def jsMulNum : JsNum → JsNum → JsNum
  | .fin a, .fin b => .fin (a * b)
  | .posInf, .fin b => if b = 0 then .nan else if 0 < b then .posInf else .negInf
  | .fin a, .posInf => if a = 0 then .nan else if 0 < a then .posInf else .negInf
  | .negInf, .fin b => if b = 0 then .nan else if 0 < b then .negInf else .posInf
  | .fin a, .negInf => if a = 0 then .nan else if 0 < a then .negInf else .posInf
  | .posInf, .posInf => .posInf
  | .negInf, .negInf => .posInf
  | .posInf, .negInf => .negInf
  | .negInf, .posInf => .negInf
  | _, _ => .nan

/-- JavaScript division. -/
def jsDivNum : JsNum → JsNum → JsNum
  | .fin a, .fin b => JsNum.jsDivFin a b
  | .posInf, .fin b => if 0 ≤ b then .posInf else .negInf
  | .negInf, .fin b => if 0 ≤ b then .negInf else .posInf
  | .fin _, .posInf => .fin 0
  | .fin _, .negInf => .fin 0
  | _, _ => .nan

/-- `Math.sqrt`. -/
def jsSqrtNum : JsNum → JsNum
  | .fin q => JsNum.jsSqrtFin q
  | .posInf => .posInf
  | _ => .nan

/-- `Math.abs`. -/
def jsAbs : JsNum → JsNum
  | .fin q => .fin |q|
  | .posInf => .posInf
  | .negInf => .posInf
  | _ => .nan

/-- JavaScript `>` against a finite threshold (`NaN > t` is false). -/
def jsGtQ (x : JsNum) (t : ℚ) : Bool :=
  match x with
  | .fin q => t < q
  | .posInf => true
  | _ => false

/-- Sum of a list of JavaScript numbers (`reduce((a,b) => a+b, 0)`). -/
def jsSum (xs : List JsNum) : JsNum :=
  xs.foldl jsAdd (.fin 0)

/-! ## Metrics evaluators

Two evaluators exist in the source:
* `computeMetricsFromCSV` (lines 61–96): best-effort scoring of a given
  model against the fetched CSV; substitutes `0.0000001` for a zero
  `ssTot` (the `|| 0.0000001` at line 74) and derives thresholded
  precision/recall/f1.
* the in-situ training-set block inside `initModel` (lines 205–219):
  same formulas but **no** epsilon substitution on `ssTot` and no
  derived classification metrics.
-/

/-- The prediction the evaluator computes for one CSV row `r`:
`m.intercept + m.betas[0]*r[0] + m.betas[1]*r[1] + m.betas[2]*r[2]`. -/
def predRowJs (m : Model) (x0 x1 x2 : ℚ) : JsNum :=
  jsAdd (jsAdd (jsAdd m.intercept (jsMulNum m.betas.1 (.fin x0)))
      (jsMulNum m.betas.2.1 (.fin x1)))
    (jsMulNum m.betas.2.2 (.fin x2))

/-- The raw total sum of squares `SStot = Σ(y - meanY)²`. -/
def ssTotRaw (yTrue : List ℚ) : ℚ :=
  (yTrue.map (fun v => (v - yTrue.sum / yTrue.length) ^ 2)).sum

/-- `ssTot` as used by `computeMetricsFromCSV`: the raw total sum of
squares, with `1e-7` substituted when it is exactly zero
(`ssTot ... || 0.0000001`). -/
def ssTotUsed (yTrue : List ℚ) : ℚ :=
  if ssTotRaw yTrue = 0 then 1 / 10000000 else ssTotRaw yTrue

/-- `SSres = Σ(y - ŷ)²` over possibly non-finite predictions. -/
def ssResJs (yTrue : List ℚ) (preds : List JsNum) : JsNum :=
  jsSum ((yTrue.zip preds).map
    (fun vp => jsMulNum (JsNum.jsSub (.fin vp.1) vp.2) (JsNum.jsSub (.fin vp.1) vp.2)))

/-- `SSres = Σ(y - ŷ)²` over exact predictions (the in-situ path). -/
def ssResRawQ (yTrue preds : List ℚ) : ℚ :=
  ((yTrue.zip preds).map (fun vp => (vp.1 - vp.2) ^ 2)).sum

/-- The metrics record built by `computeMetricsFromCSV` (lines 72–92)
from true targets and (possibly non-finite) predictions. -/
def csvMetrics (yTrue : List ℚ) (preds : List JsNum) : Metrics :=
  let n : ℚ := yTrue.length
  let meanY := yTrue.sum / n
  let ssRes := ssResJs yTrue preds
  let r2 := JsNum.jsSub (.fin 1) (jsDivNum ssRes (.fin (ssTotUsed yTrue)))
  let rmse := jsSqrtNum (jsDivNum ssRes (.fin n))
  let mae := jsDivNum (jsSum ((yTrue.zip preds).map
    (fun vp => jsAbs (JsNum.jsSub (.fin vp.1) vp.2)))) (.fin n)
  let rel_rmse_pct := if meanY ≠ 0 then some (JsNum.jsMulFin (JsNum.jsDivByFin rmse meanY) 100) else none
  let thresh := meanY
  let yTrueBin := yTrue.map (fun v => decide (thresh < v))
  let predsBin := preds.map (fun p => jsGtQ p thresh)
  let pairs := predsBin.zip yTrueBin
  let tp : ℚ := (pairs.filter (fun pb => pb.1 && pb.2)).length
  let fp : ℚ := (pairs.filter (fun pb => pb.1 && !pb.2)).length
  let fn : ℚ := (pairs.filter (fun pb => !pb.1 && pb.2)).length
  let precision := if 0 < tp + fp then some (tp / (tp + fp)) else none
  let recl := if 0 < tp + fn then some (tp / (tp + fn)) else none
  let f1 := match precision, recl with
    | some p, some r => if 0 < p + r then some (JsNum.fin (2 * p * r / (p + r))) else none
    | _, _ => none
  { r2 := some r2, rmse := some rmse, mae := some mae, meanSales := some (.fin meanY),
    rel_rmse_pct := rel_rmse_pct,
    precision := precision.map JsNum.fin, «recall» := recl.map JsNum.fin, f1 := f1 }

/-- The in-situ training-set metrics block of `initModel` (lines
205–216).  Both targets and predictions are exact rationals here (the
freshly fitted coefficients are finite).  Note the **raw** `ssTot` in
the `r2` division — no epsilon substitution in this path. -/
def insituMetrics (yTrue preds : List ℚ) : Metrics :=
  let n : ℚ := yTrue.length
  let meanY := yTrue.sum / n
  let ssRes := ssResRawQ yTrue preds
  let ssTot := ssTotRaw yTrue
  let r2 := JsNum.jsSub (.fin 1) (JsNum.jsDivFin ssRes ssTot)
  let rmse := JsNum.jsSqrtFin (ssRes / n)
  let mae : ℚ := ((yTrue.zip preds).map (fun vp => |vp.1 - vp.2|)).sum / n
  let rel_rmse_pct := if meanY ≠ 0 then some (JsNum.jsMulFin (JsNum.jsDivByFin rmse meanY) 100) else none
  { r2 := some r2, rmse := some rmse, mae := some (.fin mae), meanSales := some (.fin meanY),
    rel_rmse_pct := rel_rmse_pct, precision := none, «recall» := none, f1 := none }

/-! ## Linear algebra primitives

The source defines `transpose`, `matMul` and `invertMatrix` over
`number[][]`.  We index matrices by `Fin`: `transpose` is `Matrix.transpose`
(`(i,j) ↦ A[j][i]`) and `matMul` is Mathlib's `*`
(`C[i][j] = Σ_k A[i][k]·B[k][j]`, exactly the accumulation the source's
triple loop performs).  `invertMatrix` is the Gauss-Jordan elimination
of lines 40–58, written over the pair of halves of the augmented
matrix `[A | I]`: every row operation is applied to both halves, as the
source's loops over `j < 2n` do. -/

/-- Rows `i` and `j` swapped (`const tmp = M[i]; M[i] = M[maxRow]; ...`). -/
def swapRowsM {n m : ℕ} (M : Matrix (Fin n) (Fin m) ℚ) (i j : Fin n) :
    Matrix (Fin n) (Fin m) ℚ :=
  Matrix.of fun r c => if r = i then M j c else if r = j then M i c else M r c

/-- Row `i` multiplied through by `t` (the source divides by the pivot
`div`, i.e. multiplies by `div⁻¹`). -/
def scaleRowM {n m : ℕ} (M : Matrix (Fin n) (Fin m) ℚ) (i : Fin n) (t : ℚ) :
    Matrix (Fin n) (Fin m) ℚ :=
  Matrix.of fun r c => if r = i then t * M r c else M r c

/-- For every row `r ≠ i`, subtract `mults r` times row `i` (the
elimination loop; each row's multiplier `M[r][i]` is read before that
row is updated, and row `i` itself is skipped, so the sequential source
loop equals this simultaneous update). -/
def elimRowsM {n m : ℕ} (M : Matrix (Fin n) (Fin m) ℚ) (i : Fin n)
    (mults : Fin n → ℚ) : Matrix (Fin n) (Fin m) ℚ :=
  Matrix.of fun r c => if r = i then M r c else M r c - mults r * M i c

/-- Partial pivoting (lines 45–46): among rows `r > i` (scanned in
increasing order), move to `r` whenever `|M[r][i]| > |M[maxRow][i]|`,
starting from `maxRow = i`. -/
def pivotRow {n : ℕ} (M : Matrix (Fin n) (Fin n) ℚ) (i : Fin n) : Fin n :=
  ((List.finRange n).filter (fun r => i < r)).foldl
    (fun best r => if |M best i| < |M r i| then r else best) i

/-- The state of the augmented matrix `[L | R]` during elimination. -/
structure GJState (n : ℕ) where
  L : Matrix (Fin n) (Fin n) ℚ
  R : Matrix (Fin n) (Fin n) ℚ

/-- The singularity threshold of line 47. -/
def gjEps : ℚ := 1 / 1000000000000

/-- One iteration of the elimination loop (lines 44–55) at column `i`:
pivot selection, the `< 1e-12` singularity test, row swap, pivot-row
normalisation, and elimination in all other rows. -/
def gjStep {n : ℕ} (st : GJState n) (i : Fin n) : Option (GJState n) :=
  let p := pivotRow st.L i
  if |st.L p i| < gjEps then none
  else
    let L1 := swapRowsM st.L i p
    let R1 := swapRowsM st.R i p
    let d := L1 i i
    let L2 := scaleRowM L1 i d⁻¹
    let R2 := scaleRowM R1 i d⁻¹
    let L3 := elimRowsM L2 i (fun r => L2 r i)
    let R3 := elimRowsM R2 i (fun r => L2 r i)
    some ⟨L3, R3⟩

/-- The outer loop over pivot columns `i = k, k+1, …, n-1`, by fuel
(`fuel` invocations remaining). -/
def gjLoop {n : ℕ} : ℕ → ℕ → GJState n → Option (GJState n)
  | _, 0, st => some st
  | k, fuel + 1, st =>
    if h : k < n then
      match gjStep st ⟨k, h⟩ with
      | none => none
      | some st1 => gjLoop (k + 1) fuel st1
    else some st

/-- `invertMatrix` (lines 40–58): Gauss-Jordan over `[A | I]`, returning
the right half on success and `none` for the `'Matrix is singular'`
throw. -/
def invertMatrix {n : ℕ} (A : Matrix (Fin n) (Fin n) ℚ) :
    Option (Matrix (Fin n) (Fin n) ℚ) :=
  (gjLoop 0 n ⟨A, 1⟩).map GJState.R

/-! ## Dataset loading -/

/-- `split(sep)` on character lists: split at every occurrence of the
separator (an empty input yields `[""]`, as in JavaScript). -/
def splitOnChar (sep : Char) (cs : List Char) : List (List Char) :=
  cs.foldr
    (fun c acc =>
      if c = sep then [] :: acc
      else
        match acc with
        | h :: t => (c :: h) :: t
        | [] => [[c]])
    [[]]

/-- Replace every (non-overlapping, left-to-right) `\r\n` by `\n`. -/
def replaceCRLF : List Char → List Char
  | '\r' :: '\n' :: t => '\n' :: replaceCRLF t
  | c :: t => c :: replaceCRLF t
  | [] => []

/-- `txt.split(/\r?\n/)`: the regex consumes `\r\n` preferentially,
which equals replacing every `\r\n` by `\n` and splitting on `\n`. -/
def splitLines (txt : String) : List (List Char) :=
  splitOnChar '\n' (replaceCRLF txt.data)

/-- `split(...).map(l => l.trim()).filter(l => l.length > 0)`. -/
def trimmedLines (txt : String) : List (List Char) :=
  ((splitLines txt).map trimChars).filter (fun l => 0 < l.length)

/-- `l.split(',').map(v => parseFloat(v))`. -/
def parseRowFields (l : List Char) : List JsNum :=
  (splitOnChar ',' l).map parseFloatChars

/-- The row-acceptance test of both CSV consumers
(`r.length >= 4 && !r.some(x => Number.isNaN(x))`). -/
def keptRow (r : List JsNum) : Bool :=
  4 ≤ r.length && !(r.any JsNum.isNaN)

/-- All parsed data rows (header dropped), unfiltered. -/
def dataRows (txt : String) : List (List JsNum) :=
  ((trimmedLines txt).drop 1).map parseRowFields

/-- The rows that survive the acceptance test. -/
def validRows (txt : String) : List (List JsNum) :=
  (dataRows txt).filter keptRow

/-- One dataset row `(tv, radio, newspaper, sales)` as exact rationals. -/
def Row : Type := ℚ × ℚ × ℚ × ℚ

/-- Glue from parsed fields to exact rationals.  Exact on finite
values.  A kept row can still contain `±Infinity` (only `NaN` is
filtered); the source would then propagate non-finite values through
the fit, which the ℚ-valued numeric stage does not model — no numeric
theorem below is instantiated on such rows. -/
def toRatOr0 : JsNum → ℚ
  | .fin q => q
  | _ => 0

/-- A kept field list as a `Row` (kept rows have ≥ 4 fields). -/
def rowOfFields (r : List JsNum) : Row :=
  (toRatOr0 (r.getD 0 .nan), toRatOr0 (r.getD 1 .nan),
   toRatOr0 (r.getD 2 .nan), toRatOr0 (r.getD 3 .nan))

/-! ## Model fitter -/

/-- Initialization errors, one per `throw new Error(...)` site. -/
inductive InitError where
  | fetchFailed : InitError      -- 'Failed to fetch advertising.csv'
  | emptyCSV : InitError         -- 'CSV appears empty'
  | notEnoughData : InitError    -- 'Not enough data rows'
  | singularMatrix : InitError   -- 'Matrix is singular'
  deriving DecidableEq, Repr

/-- The design matrix `X` (line 189): an intercept column of ones
prepended to the TV, Radio, Newspaper columns. -/
def designX (rows : List Row) : Matrix (Fin rows.length) (Fin 4) ℚ :=
  Matrix.of fun i c => ![1, (rows.get i).1, (rows.get i).2.1, (rows.get i).2.2.1] c

/-- The target column vector `y = Sales` (line 190). -/
def salesY (rows : List Row) : Matrix (Fin rows.length) (Fin 1) ℚ :=
  Matrix.of fun i _ => (rows.get i).2.2.2

/-- `XᵀX` (line 193). -/
def XtXOf (rows : List Row) : Matrix (Fin 4) (Fin 4) ℚ :=
  Matrix.transpose (designX rows) * designX rows

/-- `Xᵀy` (line 194). -/
def XtYOf (rows : List Row) : Matrix (Fin 4) (Fin 1) ℚ :=
  Matrix.transpose (designX rows) * salesY rows

/-- The TV column sum (line 182). -/
def sumTVOf (rows : List Row) : ℚ := (rows.map (·.1)).sum

/-- The Radio column sum (line 183). -/
def sumRadioOf (rows : List Row) : ℚ := (rows.map (·.2.1)).sum

/-- The Newspaper column sum (line 184). -/
def sumNewsOf (rows : List Row) : ℚ := (rows.map (·.2.2.1)).sum

/-- The grand total of the three channel column sums (line 185). -/
def totalChannelsOf (rows : List Row) : ℚ :=
  sumTVOf rows + sumRadioOf rows + sumNewsOf rows

/-- The CSV-fitting path of `initModel` (lines 168–221) applied to the
kept rows: the `n < 10` check, channel shares (note the **unguarded**
division by `totalChannels` at line 186, modelled by `jsDivFin`, which
yields `NaN`/`±Infinity` on a zero total exactly as JavaScript does),
the normal-equations solve, and the in-situ training metrics. -/
def fitRows (rows : List Row) : Except InitError Model :=
  if rows.length < 10 then .error .notEnoughData
  else
    let totalChannels := totalChannelsOf rows
    let channelShares := (JsNum.jsDivFin (sumTVOf rows) totalChannels,
      JsNum.jsDivFin (sumRadioOf rows) totalChannels,
      JsNum.jsDivFin (sumNewsOf rows) totalChannels)
    match invertMatrix (XtXOf rows) with
    | none => .error .singularMatrix
    | some inv =>
      let betaMat := inv * XtYOf rows
      let preds := rows.map (fun r =>
        betaMat 0 0 + betaMat 1 0 * r.1 + betaMat 2 0 * r.2.1 + betaMat 3 0 * r.2.2.1)
      .ok { intercept := .fin (betaMat 0 0),
            betas := (.fin (betaMat 1 0), .fin (betaMat 2 0), .fin (betaMat 3 0)),
            channelShares := channelShares,
            metrics := some (insituMetrics (rows.map (·.2.2.2)) preds) }

/-- Lines 160–221: the whole CSV branch, from raw text. -/
def fitFromText (txt : String) : Except InitError Model :=
  if (trimmedLines txt).length ≤ 1 then .error .emptyCSV
  else fitRows ((validRows txt).map rowOfFields)

/-- The CSV branch including the fetch (`none` = fetch rejected or
`!resp.ok`, line 161's throw). -/
def fitFromFetch (csv : Option String) : Except InitError Model :=
  match csv with
  | none => .error .fetchFailed
  | some txt => fitFromText txt

/-! ## Metrics backfill (`computeMetricsFromCSV`, lines 61–96) -/

/-- `computeMetricsFromCSV`: score model `m` against the fetched CSV;
on any failure (fetch, empty, no valid rows) return `m` unchanged —
all errors in this path are swallowed. -/
def computeMetricsFromCSV (csv : Option String) (m : Model) : Model :=
  match csv with
  | none => m
  | some txt =>
    if (trimmedLines txt).length ≤ 1 then m
    else
      let rows := (validRows txt).map rowOfFields
      let yTrue := rows.map (·.2.2.2)
      let preds := rows.map (fun r => predRowJs m r.1 r.2.1 r.2.2.1)
      if yTrue.length = 0 then m
      else { m with metrics := some (csvMetrics yTrue preds) }

/-! ## Artifact adapter (lines 110–137) -/

/-- The normalized metrics when `metricsRaw.linear` is truthy (lines
115–124): `r2`/`rmse`/`mae` come only from the `linear` sub-object;
`meanSales` only from the root keys `mean_sales`/`mean_sales_test`/
`meanSales`; `rel_rmse_pct`, `precision`, `recall`, `f1` from `linear`
with root fallback.  `metricField` collapses a nullish result of the
`?? null` chain to `none`; values outside the declared `number | null`
field type are also collapsed. -/
def metricField (v : Option JsVal) : Option JsNum :=
  match v with
  | some (.num x) => some x
  | _ => none

/-- The nested (`linear`) normalization branch. -/
def linearNormalized (mraw l : JsVal) : Metrics :=
  { r2 := metricField (jsGet l "r2"),
    rmse := metricField (jsGet l "rmse"),
    mae := metricField (jsGet l "mae"),
    meanSales := metricField (jsCoalesce (jsGet mraw "mean_sales")
      (jsCoalesce (jsGet mraw "mean_sales_test") (jsGet mraw "meanSales"))),
    rel_rmse_pct := metricField (jsCoalesce (jsGet l "rel_rmse_pct")
      (jsCoalesce (jsGet l "rel_rmse_pct") (jsGet mraw "rel_rmse_pct"))),
    precision := metricField (jsCoalesce (jsGet l "precision") (jsGet mraw "precision")),
    «recall» := metricField (jsCoalesce (jsGet l "recall") (jsGet mraw "recall")),
    f1 := metricField (jsCoalesce (jsGet l "f1") (jsGet mraw "f1")) }

/-- The flat normalization branch (lines 126–135). -/
def flatNormalized (mraw : JsVal) : Metrics :=
  { r2 := metricField (jsGet mraw "r2"),
    rmse := metricField (jsGet mraw "rmse"),
    mae := metricField (jsGet mraw "mae"),
    meanSales := metricField (jsCoalesce (jsGet mraw "mean_sales")
      (jsCoalesce (jsGet mraw "mean_sales_test") (jsGet mraw "meanSales"))),
    rel_rmse_pct := metricField (jsCoalesce (jsGet mraw "rel_rmse_pct") (jsGet mraw "rel_rmse_pct")),
    precision := metricField (jsGet mraw "precision"),
    «recall» := metricField (jsGet mraw "recall"),
    f1 := metricField (jsGet mraw "f1") }

/-- Lines 110–137: `metricsRaw = json.metrics ?? null`; `undefined`
when `metricsRaw` is falsy; otherwise the `linear` branch when
`metricsRaw.linear` is truthy, else the flat branch. -/
def normalizedMetricsOf (json : JsVal) : Option Metrics :=
  let metricsRaw := jsCoalesce (jsGet json "metrics") (some .null)
  match metricsRaw with
  | some mraw =>
    if jsTruthy mraw then
      match jsGet mraw "linear" with
      | some l => if jsTruthy l then some (linearNormalized mraw l) else some (flatNormalized mraw)
      | none => some (flatNormalized mraw)
    else none
  | none => none

/-- The artifact-adoption branch of `initModel` (lines 105–153).
Returns `none` when the branch throws (artifact marked `removed`, or a
`TypeError` from indexing a nullish `betas`/`channelShares`); the throw
is caught at line 155 and the caller falls back to CSV fitting. -/
def adoptArtifact (json : JsVal) (csv : Option String) : Option Model :=
  if jsTruthy json && jsTruthyOpt (jsGet json "removed") then none
  else
    match json with
    | .null => none
    | _ =>
      match jsIndex (jsGet json "betas") 0, jsIndex (jsGet json "betas") 1,
            jsIndex (jsGet json "betas") 2, jsIndex (jsGet json "channelShares") 0,
            jsIndex (jsGet json "channelShares") 1, jsIndex (jsGet json "channelShares") 2 with
      | some b0, some b1, some b2, some c0, some c1, some c2 =>
        let m0 : Model :=
          { intercept := jsToNumber (jsGet json "intercept"),
            betas := (jsToNumber b0, jsToNumber b1, jsToNumber b2),
            channelShares := (jsToNumber c0, jsToNumber c1, jsToNumber c2),
            metrics := normalizedMetricsOf json }
        let needBackfill := match m0.metrics with
          | none => true
          | some mm => mm.r2.isNone
        some (if needBackfill then computeMetricsFromCSV csv m0 else m0)
      | _, _, _, _, _, _ => none

/-! ## Model cache -/

/-- `initModel` (lines 98–222) as a function of the cache state and the
two fetch outcomes (`artifact`: parsed `/model-coefs.json`, `none` when
the fetch rejected, was not ok, or the body was unparsable; `csv`: the
`/advertising.csv` body).  Returns the model that is also stored in the
cache on success. -/
def initModel (cache : Option Model) (artifact : Option JsVal) (csv : Option String) :
    Except InitError Model :=
  match cache with
  | some m => .ok m
  | none =>
    match artifact.bind (fun j => adoptArtifact j csv) with
    | some m => .ok m
    | none => fitFromFetch csv

/-! ## Prediction service -/

/-- The single prediction-time error. -/
inductive PredError where
  | modelNotInitialized : PredError    -- 'Model not initialized'
  deriving DecidableEq, Repr

/-- `predictFromChannels` (lines 232–241).  The user-facing amounts are
exact rationals; the model coefficients may be any JavaScript number. -/
def predictFromChannels (st : Option Model) (tv radio newspaper : ℚ)
    (inputsAreDollars : Bool) : Except PredError JsNum :=
  match st with
  | none => .error .modelNotInitialized
  | some m =>
    let scale : ℚ := if inputsAreDollars then 1 / 1000 else 1
    .ok (jsAdd (jsAdd (jsAdd m.intercept (JsNum.jsMulFin m.betas.1 (tv * scale)))
        (JsNum.jsMulFin m.betas.2.1 (radio * scale)))
      (JsNum.jsMulFin m.betas.2.2 (newspaper * scale)))

/-- `predictFromChannels` on feature values that are already JavaScript
numbers (as produced by `predictFromTotal`'s share apportioning). -/
def predictFromChannelsJs (st : Option Model) (tv radio newspaper : JsNum)
    (inputsAreDollars : Bool) : Except PredError JsNum :=
  match st with
  | none => .error .modelNotInitialized
  | some m =>
    let scale : ℚ := if inputsAreDollars then 1 / 1000 else 1
    .ok (jsAdd (jsAdd (jsAdd m.intercept (jsMulNum m.betas.1 (jsMulNum tv (.fin scale))))
        (jsMulNum m.betas.2.1 (jsMulNum radio (.fin scale))))
      (jsMulNum m.betas.2.2 (jsMulNum newspaper (.fin scale))))

/-- `predictFromTotal` (lines 224–230): scale a dollar total above the
1000 heuristic threshold into dataset units, apportion by the channel
shares, and delegate with `inputsAreDollars = false`. -/
def predictFromTotal (st : Option Model) (totalExpense : ℚ)
    (inputsAreDollars : Bool) : Except PredError JsNum :=
  match st with
  | none => .error .modelNotInitialized
  | some m =>
    let scaledTotal := if inputsAreDollars && totalExpense > 1000
      then totalExpense / 1000 else totalExpense
    predictFromChannelsJs st (JsNum.jsMulFin m.channelShares.1 scaledTotal)
      (JsNum.jsMulFin m.channelShares.2.1 scaledTotal)
      (JsNum.jsMulFin m.channelShares.2.2 scaledTotal) false

/-- The channel selector of `predictSingleChannel`. -/
inductive Channel where
  | tv : Channel
  | radio : Channel
  | newspaper : Channel
  deriving DecidableEq, Repr

/-- `predictSingleChannel` (lines 243–248): zero the other channels. -/
def predictSingleChannel (st : Option Model) (channel : Channel) (amount : ℚ)
    (inputsAreDollars : Bool) : Except PredError JsNum :=
  match st with
  | none => .error .modelNotInitialized
  | some _ =>
    match channel with
    | .tv => predictFromChannels st amount 0 0 inputsAreDollars
    | .radio => predictFromChannels st 0 amount 0 inputsAreDollars
    | .newspaper => predictFromChannels st 0 0 amount inputsAreDollars

/-- `getModelCoefficients` (lines 250–257). -/
def getModelCoefficients (st : Option Model) :
    Except PredError (JsNum × (JsNum × JsNum × JsNum) × (JsNum × JsNum × JsNum)) :=
  match st with
  | none => .error .modelNotInitialized
  | some m => .ok (m.intercept, m.betas, m.channelShares)

/-- The literal default record of line 261. -/
def defaultMetrics : Metrics :=
  { r2 := none, rmse := none, mae := none, meanSales := none, rel_rmse_pct := none,
    precision := none, «recall» := none, f1 := none }

/-- `getModelMetrics` (lines 259–262): throws when the cache is empty,
otherwise `model.metrics ?? {r2: null, rmse: null, mae: null,
meanSales: null, rel_rmse_pct: null}`. -/
def getModelMetrics (st : Option Model) : Except PredError Metrics :=
  match st with
  | none => .error .modelNotInitialized
  | some m => .ok (m.metrics.getD defaultMetrics)

/-! ## Computability plumbing

Batteries marks the core `Rat` operations `@[irreducible]`, which
blocks `decide`-style evaluation of concrete instances; restore
default reducibility (this has no logical content).  `Except` does not
derive `DecidableEq` upstream. -/

set_option allowUnsafeReducibility true in
attribute [semireducible] Rat.mul Rat.add Rat.inv Rat.sub Rat.div Rat.blt

deriving instance DecidableEq for Except

/-! ## Correctness of the Gauss-Jordan inversion

The invariant argument: every `gjStep` applies the same row operations
to both halves of the augmented matrix, so `R * A = L` is preserved
(each row operation commutes with right-multiplication by `A`); and
after the step for column `k`, columns `0..k` of `L` are the
corresponding identity columns.  On successful termination `L = 1`,
hence `R * A = 1` and `R = A⁻¹`. -/

/-- Columns `c < k` of `L` are identity columns. -/
def IdCols {n : ℕ} (k : ℕ) (L : Matrix (Fin n) (Fin n) ℚ) : Prop :=
  ∀ (r c : Fin n), (c : ℕ) < k → L r c = if r = c then 1 else 0

theorem swapRowsM_mul {n m : ℕ} (M : Matrix (Fin n) (Fin n) ℚ)
    (A : Matrix (Fin n) (Fin m) ℚ) (i j : Fin n) :
    swapRowsM M i j * A = swapRowsM (M * A) i j := by
  ext r c
  by_cases h1 : r = i
  · simp [swapRowsM, Matrix.mul_apply, h1]
  · by_cases h2 : r = j <;> simp [swapRowsM, Matrix.mul_apply, h1, h2]

theorem scaleRowM_mul {n m : ℕ} (M : Matrix (Fin n) (Fin n) ℚ)
    (A : Matrix (Fin n) (Fin m) ℚ) (i : Fin n) (t : ℚ) :
    scaleRowM M i t * A = scaleRowM (M * A) i t := by
  ext r c
  by_cases h1 : r = i <;>
    simp [scaleRowM, Matrix.mul_apply, h1, Finset.mul_sum, mul_assoc]

theorem elimRowsM_mul {n m : ℕ} (M : Matrix (Fin n) (Fin n) ℚ)
    (A : Matrix (Fin n) (Fin m) ℚ) (i : Fin n) (g : Fin n → ℚ) :
    elimRowsM M i g * A = elimRowsM (M * A) i g := by
  ext r c
  by_cases h1 : r = i
  · simp [elimRowsM, Matrix.mul_apply, h1]
  · simp [elimRowsM, Matrix.mul_apply, h1, sub_mul, Finset.sum_sub_distrib,
      Finset.mul_sum, mul_assoc]

theorem le_pivotRow {n : ℕ} (M : Matrix (Fin n) (Fin n) ℚ) (i : Fin n) :
    i ≤ pivotRow M i := by
  unfold pivotRow
  have key : ∀ (l : List (Fin n)) (b : Fin n), i ≤ b → (∀ r ∈ l, i ≤ r) →
      i ≤ l.foldl (fun best r => if |M best i| < |M r i| then r else best) b := by
    intro l
    induction l with
    | nil => intro b hb _; exact hb
    | cons x xs ih =>
      intro b hb hall
      apply ih
      · dsimp only
        split
        · exact hall x (List.mem_cons_self x xs)
        · exact hb
      · exact fun r hr => hall r (List.mem_cons_of_mem x hr)
  apply key _ i le_rfl
  intro r hr
  rw [List.mem_filter] at hr
  exact le_of_lt (of_decide_eq_true hr.2)

theorem gjStep_leftInv {n : ℕ} {A : Matrix (Fin n) (Fin n) ℚ} {st st' : GJState n}
    {i : Fin n} (hinv : st.R * A = st.L) (h : gjStep st i = some st') :
    st'.R * A = st'.L := by
  unfold gjStep at h
  by_cases hc : |st.L (pivotRow st.L i) i| < gjEps
  · simp [hc] at h
  · simp only [if_neg hc, Option.some.injEq] at h
    subst h
    dsimp only
    rw [elimRowsM_mul, scaleRowM_mul, swapRowsM_mul, hinv]

theorem gjStep_idCols {n : ℕ} {st st' : GJState n} {k : ℕ} (hk : k < n)
    (hid : IdCols k st.L) (h : gjStep st ⟨k, hk⟩ = some st') :
    IdCols (k + 1) st'.L := by
  set i : Fin n := ⟨k, hk⟩ with hi
  have hik : (i : ℕ) = k := rfl
  have hip : i ≤ pivotRow st.L i := le_pivotRow st.L i
  unfold gjStep at h
  by_cases hc : |st.L (pivotRow st.L i) i| < gjEps
  · simp [hc] at h
  · simp only [if_neg hc, Option.some.injEq] at h
    subst h
    set p := pivotRow st.L i with hp
    have hd0 : st.L p i ≠ 0 := by
      intro h0
      rw [h0] at hc
      apply hc
      norm_num [gjEps]
    dsimp only
    set L1 := swapRowsM st.L i p with hL1
    have hL1ii : L1 i i = st.L p i := by
      simp [hL1, swapRowsM]
    have hidL1 : IdCols k L1 := by
      intro r c hck
      have hic : i ≠ c := by
        intro e
        rw [← e, hik] at hck
        omega
      have hpc : p ≠ c := by
        intro e
        have hle : (i : ℕ) ≤ (p : ℕ) := hip
        rw [e] at hle
        omega
      rw [hL1]
      show (if r = i then st.L p c else if r = p then st.L i c else st.L r c)
        = if r = c then 1 else 0
      by_cases h1 : r = i
      · have hrc : r ≠ c := by rw [h1]; exact hic
        rw [if_pos h1, hid p c hck, if_neg hpc, if_neg hrc]
      · by_cases h2 : r = p
        · have hrc : r ≠ c := by rw [h2]; exact hpc
          rw [if_neg h1, if_pos h2, hid i c hck, if_neg hic, if_neg hrc]
        · rw [if_neg h1, if_neg h2, hid r c hck]
    set d := L1 i i with hd
    have hdne : d ≠ 0 := by
      rw [hL1ii]
      exact hd0
    set L2 := scaleRowM L1 i d⁻¹ with hL2
    have hidL2 : IdCols k L2 := by
      intro r c hck
      have hic : i ≠ c := by
        intro e
        rw [← e, hik] at hck
        omega
      rw [hL2]
      show (if r = i then d⁻¹ * L1 r c else L1 r c) = if r = c then 1 else 0
      by_cases h1 : r = i
      · have hrc : r ≠ c := by rw [h1]; exact hic
        rw [if_pos h1, hidL1 r c hck, if_neg hrc, mul_zero]
      · rw [if_neg h1, hidL1 r c hck]
    have hL2ii : L2 i i = 1 := by
      rw [hL2]
      show (if i = i then d⁻¹ * L1 i i else L1 i i) = 1
      rw [if_pos rfl, ← hd]
      exact inv_mul_cancel₀ hdne
    intro r c hck1
    show (if r = i then L2 r c else L2 r c - L2 r i * L2 i c) = if r = c then 1 else 0
    by_cases hci : (c : ℕ) < k
    · have hic : i ≠ c := by
        intro e
        rw [← e, hik] at hci
        omega
      by_cases h1 : r = i
      · rw [if_pos h1, hidL2 r c hci]
      · have hicL : L2 i c = 0 := by rw [hidL2 i c hci, if_neg hic]
        rw [if_neg h1, hidL2 r c hci, hicL, mul_zero, sub_zero]
    · have hce : c = i := by
        apply Fin.ext
        rw [hik]
        omega
      by_cases h1 : r = c
      · have hri : r = i := h1.trans hce
        rw [if_pos hri, if_pos h1, hri, hce]
        exact hL2ii
      · have hri : r ≠ i := fun e => h1 (e.trans hce.symm)
        rw [if_neg hri, if_neg h1, hce, hL2ii, mul_one, sub_self]

theorem gjLoop_correct {n : ℕ} (A : Matrix (Fin n) (Fin n) ℚ) :
    ∀ (fuel k : ℕ) (st st' : GJState n), k + fuel = n → IdCols k st.L →
      st.R * A = st.L → gjLoop k fuel st = some st' → st'.R * A = 1 := by
  intro fuel
  induction fuel with
  | zero =>
    intro k st st' hkn hid hinv h
    have h2 : st = st' := Option.some.inj h
    subst h2
    have hL : st.L = 1 := by
      ext r c
      rw [hid r c (by omega), Matrix.one_apply]
    rw [hinv, hL]
  | succ f ih =>
    intro k st st' hkn hid hinv h
    have hk : k < n := by omega
    rw [gjLoop, dif_pos hk] at h
    cases hstep : gjStep st ⟨k, hk⟩ with
    | none => rw [hstep] at h; exact absurd h (by simp)
    | some st1 =>
      rw [hstep] at h
      exact ih (k + 1) st1 st' (by omega) (gjStep_idCols hk hid hstep)
        (gjStep_leftInv hinv hstep) h

/-- Correctness of `invertMatrix`: a returned matrix is a left inverse. -/
theorem invertMatrix_left_inverse {n : ℕ} {A B : Matrix (Fin n) (Fin n) ℚ}
    (h : invertMatrix A = some B) : B * A = 1 := by
  unfold invertMatrix at h
  cases hrun : gjLoop 0 n (⟨A, 1⟩ : GJState n) with
  | none => rw [hrun] at h; exact absurd h (by simp)
  | some st' =>
    rw [hrun] at h
    have h3 : st'.R = B := Option.some.inj h
    subst h3
    exact gjLoop_correct A n 0 ⟨A, 1⟩ st' (by omega)
      (fun r c hc => absurd hc (by omega)) (Matrix.one_mul A) hrun

/-- A returned matrix is also a right inverse (square matrices over a
commutative ring). -/
theorem invertMatrix_right_inverse {n : ℕ} {A B : Matrix (Fin n) (Fin n) ℚ}
    (h : invertMatrix A = some B) : A * B = 1 :=
  Matrix.mul_eq_one_comm.mpr (invertMatrix_left_inverse h)

/-- A successful `invertMatrix` witnesses invertibility of its input. -/
theorem isUnit_of_invertMatrix {n : ℕ} {A B : Matrix (Fin n) (Fin n) ℚ}
    (h : invertMatrix A = some B) : IsUnit A :=
  ⟨⟨A, B, invertMatrix_right_inverse h, invertMatrix_left_inverse h⟩, rfl⟩

/-- A successful `invertMatrix` computes Mathlib's `A⁻¹`. -/
theorem invertMatrix_eq_inv {n : ℕ} {A B : Matrix (Fin n) (Fin n) ℚ}
    (h : invertMatrix A = some B) : A⁻¹ = B :=
  Matrix.inv_eq_left_inv (invertMatrix_left_inverse h)

/-! ## Claim theorems -/

/-- The OLS solution `(XᵀX)⁻¹ Xᵀy` of the claim, with Mathlib's matrix
inverse as the independent notion of inverse. -/
noncomputable def olsBeta (rows : List Row) : Matrix (Fin 4) (Fin 1) ℚ :=
  (XtXOf rows)⁻¹ * XtYOf rows

/-- C1: for a dataset of at least 10 valid rows on which the fitter
returns coefficients (the Gauss-Jordan inversion of `XᵀX` did not hit
its `1e-12` pivot threshold), `XᵀX` is invertible and the resulting
intercept and betas are exactly the ordinary-least-squares solution
`(XᵀX)⁻¹ Xᵀy`, which satisfies the normal equations. -/
theorem fitRows_normal_equations (rows : List Row) (h10 : 10 ≤ rows.length)
    (m : Model) (hfit : fitRows rows = .ok m) :
    IsUnit (XtXOf rows) ∧
    XtXOf rows * olsBeta rows = XtYOf rows ∧
    m.intercept = .fin (olsBeta rows 0 0) ∧
    m.betas.1 = .fin (olsBeta rows 1 0) ∧
    m.betas.2.1 = .fin (olsBeta rows 2 0) ∧
    m.betas.2.2 = .fin (olsBeta rows 3 0) := by
  unfold fitRows at hfit
  rw [if_neg (by omega)] at hfit
  cases hinv : invertMatrix (XtXOf rows) with
  | none => rw [hinv] at hfit; exact absurd hfit (by simp)
  | some B =>
    rw [hinv] at hfit
    have hAB := invertMatrix_right_inverse hinv
    have hEq := invertMatrix_eq_inv hinv
    have hrec := Except.ok.inj hfit
    subst hrec
    refine ⟨isUnit_of_invertMatrix hinv, ?_, ?_, ?_, ?_, ?_⟩
    · rw [olsBeta, hEq, ← Matrix.mul_assoc, hAB, Matrix.one_mul]
    · rw [olsBeta, hEq]
    · rw [olsBeta, hEq]
    · rw [olsBeta, hEq]
    · rw [olsBeta, hEq]

/-- A concrete 10-row dataset with `sales = 2 + 3·tv + 5·radio + 7·news`. -/
def rowsC1 : List Row :=
  [(1, 2, 3, 2 + 3 * 1 + 5 * 2 + 7 * 3), (2, 1, 4, 2 + 3 * 2 + 5 * 1 + 7 * 4),
   (3, 5, 2, 2 + 3 * 3 + 5 * 5 + 7 * 2), (4, 2, 1, 2 + 3 * 4 + 5 * 2 + 7 * 1),
   (5, 3, 3, 2 + 3 * 5 + 5 * 3 + 7 * 3), (6, 1, 2, 2 + 3 * 6 + 5 * 1 + 7 * 2),
   (7, 4, 1, 2 + 3 * 7 + 5 * 4 + 7 * 1), (8, 2, 5, 2 + 3 * 8 + 5 * 2 + 7 * 5),
   (9, 6, 2, 2 + 3 * 9 + 5 * 6 + 7 * 2), (10, 3, 4, 2 + 3 * 10 + 5 * 3 + 7 * 4)]

/-- The training metrics of the exact fit on `rowsC1`. -/
def metricsC1 : Metrics :=
  { r2 := some (.fin 1), rmse := some (.fin 0), mae := some (.fin 0),
    meanSales := some (.fin (519 / 10)), rel_rmse_pct := some (.fin 0),
    precision := none, «recall» := none, f1 := none }

/-- The model the fitter produces on `rowsC1` (the fit is exact, so the
training metrics are perfect). -/
def modelC1 : Model :=
  { intercept := .fin 2, betas := (.fin 3, .fin 5, .fin 7),
    channelShares := (.fin (55 / 111), .fin (29 / 111), .fin (9 / 37)),
    metrics := some metricsC1 }

set_option maxRecDepth 10000 in
/-- C1 witness: the theorem applied to the concrete dataset `rowsC1`. -/
theorem fitRows_normal_equations_witness :
    (10 ≤ rowsC1.length ∧ fitRows rowsC1 = .ok modelC1) ∧
    (IsUnit (XtXOf rowsC1) ∧
     XtXOf rowsC1 * olsBeta rowsC1 = XtYOf rowsC1 ∧
     modelC1.intercept = .fin (olsBeta rowsC1 0 0) ∧
     modelC1.betas.1 = .fin (olsBeta rowsC1 1 0) ∧
     modelC1.betas.2.1 = .fin (olsBeta rowsC1 2 0) ∧
     modelC1.betas.2.2 = .fin (olsBeta rowsC1 3 0)) :=
  ⟨⟨by decide, by decide⟩, fitRows_normal_equations rowsC1 (by decide) modelC1 (by decide)⟩

/-- A 10-row dataset whose channel sums cancel to a zero grand total
(the loader accepts negative values: `parseFloat` parses signs), while
`XᵀX` stays invertible; `sales = 1 + tv`. -/
def rowsC2 : List Row :=
  [(1, 2, 3, 2), (2, 1, 4, 3), (3, 5, 2, 4), (4, 2, 1, 5), (5, 3, 3, 6),
   (6, 1, 2, 7), (7, 4, 1, 8), (8, 2, 5, 9), (9, 6, 2, 10), (10, 3, -107, 11)]

set_option maxRecDepth 10000 in
/-- C2 counterexample: on `rowsC2` the grand total is zero, yet fitting
does **not** fail and does **not** avoid the division — it returns a
model whose channel shares are exactly the results of dividing the
channel sums `(55, 29, -107)` by the zero total (`Infinity`,
`Infinity`, `-Infinity` in JavaScript). -/
theorem fitRows_zero_total_counterexample :
    totalChannelsOf rowsC2 = 0 ∧
    (fitRows rowsC2).toOption.map Model.channelShares
      = some (JsNum.posInf, JsNum.posInf, JsNum.negInf) :=
  ⟨by decide, by decide⟩

/-- C2 amended: the model fitter does not guard the channel-share
division.  When the grand total is zero, fitting proceeds regardless
and `channelShares` is computed by dividing each channel sum by the
zero total (yielding the IEEE `NaN`/`±Infinity` values). -/
theorem fitRows_zero_total_unguarded (rows : List Row)
    (h0 : totalChannelsOf rows = 0) (m : Model) (hfit : fitRows rows = .ok m) :
    m.channelShares = (JsNum.jsDivFin (sumTVOf rows) 0,
      JsNum.jsDivFin (sumRadioOf rows) 0, JsNum.jsDivFin (sumNewsOf rows) 0) := by
  unfold fitRows at hfit
  by_cases hlen : rows.length < 10
  · rw [if_pos hlen] at hfit
    exact absurd hfit (by simp)
  · rw [if_neg hlen] at hfit
    cases hinv : invertMatrix (XtXOf rows) with
    | none => rw [hinv] at hfit; exact absurd hfit (by simp)
    | some B =>
      rw [hinv] at hfit
      have hrec := Except.ok.inj hfit
      subst hrec
      rw [← h0]

/-- A second zero-total dataset (distinct from `rowsC2`):
`sales = 2 + 3·tv`. -/
def rowsC2w : List Row :=
  [(1, 10, 2, 5), (2, 9, 1, 8), (3, 8, 2, 11), (4, 7, 1, 14), (5, 6, 2, 17),
   (6, 5, 1, 20), (7, 4, 2, 23), (8, 3, 1, 26), (9, 2, 2, 29), (10, 5, -128, 32)]

/-- The training metrics of the exact fit on `rowsC2w`. -/
def metricsC2w : Metrics :=
  { r2 := some (.fin 1), rmse := some (.fin 0), mae := some (.fin 0),
    meanSales := some (.fin (37 / 2)), rel_rmse_pct := some (.fin 0),
    precision := none, «recall» := none, f1 := none }

/-- The model fitted on `rowsC2w`. -/
def modelC2w : Model :=
  { intercept := .fin 2, betas := (.fin 3, .fin 0, .fin 0),
    channelShares := (.posInf, .posInf, .negInf),
    metrics := some metricsC2w }

set_option maxRecDepth 10000 in
/-- C2 witness for the amended claim, at the concrete dataset `rowsC2w`. -/
theorem fitRows_zero_total_unguarded_witness :
    (totalChannelsOf rowsC2w = 0 ∧ fitRows rowsC2w = .ok modelC2w) ∧
    modelC2w.channelShares = (JsNum.jsDivFin (sumTVOf rowsC2w) 0,
      JsNum.jsDivFin (sumRadioOf rowsC2w) 0, JsNum.jsDivFin (sumNewsOf rowsC2w) 0) :=
  ⟨⟨by decide, by decide⟩, fitRows_zero_total_unguarded rowsC2w (by decide) modelC2w (by decide)⟩

/-- The parsed fields of the data row `"7,8,Infinity,9"`. -/
def rowC3 : List JsNum := parseRowFields "7,8,Infinity,9".data

/-- C3 counterexample: the row `7,8,Infinity,9` has a field parsing to
the non-finite value `Infinity`, yet it is **kept** — the filter drops
only `NaN` fields, so "kept exactly when every field parses to a finite
number" is false. -/
theorem keptRow_infinity_counterexample :
    ¬ (keptRow rowC3 = true ↔
        (4 ≤ rowC3.length ∧ ∀ x ∈ rowC3, x.isFinite = true)) := by
  decide

/-- C3 amended: a parsed data row is kept exactly when it has at least
4 comma-separated fields none of which parses to `NaN` (fields parsing
to `±Infinity` are *not* dropped); and the CSV-fitting path fails with
an insufficient-data error (`'CSV appears empty'` or `'Not enough data
rows'`, the spec's `InsufficientData` kind) exactly when fewer than 10
valid rows remain after dropping the header and blank lines. -/
theorem keptRow_iff_and_insufficient_iff (txt : String) :
    (∀ r ∈ dataRows txt, (keptRow r = true ↔ 4 ≤ r.length ∧ ∀ x ∈ r, x.isNaN = false)) ∧
    ((fitFromText txt = .error .emptyCSV ∨ fitFromText txt = .error .notEnoughData)
      ↔ (validRows txt).length < 10) := by
  constructor
  · intro r _
    simp [keptRow, List.any_eq_false]
  · rw [fitFromText]
    by_cases hempty : (trimmedLines txt).length ≤ 1
    · rw [if_pos hempty]
      have hnil : validRows txt = [] := by
        unfold validRows dataRows
        have hdrop : (trimmedLines txt).drop 1 = [] := by
          apply List.eq_nil_of_length_eq_zero
          rw [List.length_drop]
          omega
        rw [hdrop]
        rfl
      rw [hnil]
      exact iff_of_true (Or.inl rfl) (by simp)
    · rw [if_neg hempty]
      rw [fitRows]
      by_cases h10 : ((validRows txt).map rowOfFields).length < 10
      · rw [if_pos h10]
        rw [List.length_map] at h10
        exact iff_of_true (Or.inr rfl) h10
      · rw [if_neg h10]
        rw [List.length_map] at h10
        cases hinv : invertMatrix (XtXOf ((validRows txt).map rowOfFields)) with
        | none =>
          dsimp only
          apply iff_of_false
          · rintro (h | h) <;> simp at h
          · omega
        | some B =>
          dsimp only
          apply iff_of_false
          · rintro (h | h) <;> simp at h
          · omega

/-- A small CSV for the C3 witness. -/
def csvC3w : String := "TV,Radio,Newspaper,Sales\n1,2,3,4\n5,6,NaN,8"

set_option maxRecDepth 10000 in
/-- C3 witness: the amended theorem applied to `csvC3w` and its first
data row. -/
theorem keptRow_iff_and_insufficient_iff_witness :
    ((keptRow (parseRowFields "1,2,3,4".data) = true ↔
        4 ≤ (parseRowFields "1,2,3,4".data).length ∧
          ∀ x ∈ parseRowFields "1,2,3,4".data, x.isNaN = false) ∧
     ((fitFromText csvC3w = .error .emptyCSV ∨ fitFromText csvC3w = .error .notEnoughData)
        ↔ (validRows csvC3w).length < 10)) :=
  ⟨(keptRow_iff_and_insufficient_iff csvC3w).1 (parseRowFields "1,2,3,4".data) (by decide),
   (keptRow_iff_and_insufficient_iff csvC3w).2⟩

/-- A 10-row dataset with constant sales (`SStot = 0`) and invertible
`XᵀX`; the OLS fit is exact, so `SSres = 0` as well. -/
def rowsC4 : List Row :=
  [(2, 3, 1, 7), (3, 1, 4, 7), (1, 5, 2, 7), (4, 2, 6, 7), (5, 4, 2, 7),
   (6, 2, 3, 7), (2, 6, 1, 7), (8, 3, 5, 7), (9, 1, 2, 7), (3, 7, 4, 7)]

set_option maxRecDepth 10000 in
/-- C4 counterexample: on `rowsC4` the training targets have
`SStot = 0`, and the in-situ training-set evaluation of `initModel`
computes `r2 = 1 - SSres/SStot` with the **raw** zero `SStot`: the
division is `0/0` and `r2` is `NaN`.  Had the claimed `1e-7` been
substituted, `r2` would have been the finite value `1`. -/
theorem insitu_r2_zero_division_counterexample :
    ssTotRaw (rowsC4.map (·.2.2.2)) = 0 ∧
    (fitRows rowsC4).toOption.bind (fun m => m.metrics.map Metrics.r2)
      = some (some JsNum.nan) ∧
    JsNum.jsSub (.fin 1)
        (jsDivNum (.fin 0) (.fin (ssTotUsed (rowsC4.map (·.2.2.2))))) = .fin 1 :=
  ⟨by decide, by decide, by decide⟩

/-- C4 amended: the epsilon substitution exists only in the
CSV-dataset evaluator (`computeMetricsFromCSV`): there `SStot` is
replaced by `1e-7` exactly when it is zero, so its `r2` division is
never by zero; the in-situ training-set evaluation divides by the raw
`SStot` with no substitution. -/
theorem epsilon_only_in_csv_evaluator (yTrue : List ℚ) (preds : List JsNum)
    (yT2 preds2 : List ℚ) :
    ssTotUsed yTrue ≠ 0 ∧
    (ssTotRaw yTrue = 0 → ssTotUsed yTrue = 1 / 10000000) ∧
    (csvMetrics yTrue preds).r2
      = some (JsNum.jsSub (.fin 1) (jsDivNum (ssResJs yTrue preds) (.fin (ssTotUsed yTrue)))) ∧
    (insituMetrics yT2 preds2).r2
      = some (JsNum.jsSub (.fin 1) (JsNum.jsDivFin (ssResRawQ yT2 preds2) (ssTotRaw yT2))) := by
  refine ⟨?_, ?_, rfl, rfl⟩
  · rw [ssTotUsed]
    split_ifs with h
    · norm_num
    · exact h
  · intro h
    rw [ssTotUsed, if_pos h]

/-- C4 witness: the amended theorem at concrete inputs. -/
theorem epsilon_only_in_csv_evaluator_witness :
    ssTotUsed [7, 7] ≠ 0 ∧
    (ssTotRaw [7, 7] = 0 → ssTotUsed [7, 7] = 1 / 10000000) ∧
    (csvMetrics [7, 7] [.fin 7, .fin 7]).r2
      = some (JsNum.jsSub (.fin 1)
          (jsDivNum (ssResJs [7, 7] [.fin 7, .fin 7]) (.fin (ssTotUsed [7, 7])))) ∧
    (insituMetrics [1, 2] [1, 2]).r2
      = some (JsNum.jsSub (.fin 1) (JsNum.jsDivFin (ssResRawQ [1, 2] [1, 2]) (ssTotRaw [1, 2]))) :=
  epsilon_only_in_csv_evaluator [7, 7] [.fin 7, .fin 7] [1, 2] [1, 2]

theorem jsMulFin_div_1000 (s : JsNum) (T : ℚ) (hT : 1000 < T) :
    JsNum.jsMulFin s (T / 1000) = JsNum.jsDivByFin (JsNum.jsMulFin s T) 1000 := by
  have hTpos : (0 : ℚ) < T := by linarith
  have hT0 : T ≠ 0 := hTpos.ne'
  have hTd : T / 1000 ≠ 0 := div_ne_zero hT0 (by norm_num)
  have hTdpos : (0 : ℚ) < T / 1000 := by positivity
  cases s with
  | nan => rfl
  | posInf =>
    simp only [JsNum.jsMulFin, JsNum.jsDivByFin, if_neg hTd, if_pos hTdpos,
      if_neg hT0, if_pos hTpos]
    norm_num
  | negInf =>
    simp only [JsNum.jsMulFin, JsNum.jsDivByFin, if_neg hTd, if_pos hTdpos,
      if_neg hT0, if_pos hTpos]
    norm_num
  | fin a =>
    simp only [JsNum.jsMulFin, JsNum.jsDivByFin, JsNum.fin.injEq]
    ring
  | sqrtScaled k q =>
    simp only [JsNum.jsMulFin, JsNum.jsDivByFin, if_neg hTd, if_neg hT0,
      JsNum.sqrtScaled.injEq]
    constructor
    · ring
    · trivial

/-- C5: for an initialized model and any total expense `T > 1000`,
`predictFromTotal(T, true)` equals `predictFromChannels` applied to the
share-apportioned amounts `T·s/1000` with `inputsAreDollars = false`. -/
theorem predictFromTotal_apportions (st : Option Model) (m : Model)
    (hst : st = some m) (T : ℚ) (hT : 1000 < T) :
    predictFromTotal st T true =
      predictFromChannelsJs st (JsNum.jsDivByFin (JsNum.jsMulFin m.channelShares.1 T) 1000)
        (JsNum.jsDivByFin (JsNum.jsMulFin m.channelShares.2.1 T) 1000)
        (JsNum.jsDivByFin (JsNum.jsMulFin m.channelShares.2.2 T) 1000) false := by
  subst hst
  show predictFromChannelsJs (some m)
      (JsNum.jsMulFin m.channelShares.1 (if true && T > 1000 then T / 1000 else T))
      (JsNum.jsMulFin m.channelShares.2.1 (if true && T > 1000 then T / 1000 else T))
      (JsNum.jsMulFin m.channelShares.2.2 (if true && T > 1000 then T / 1000 else T)) false = _
  rw [if_pos (by simpa using hT), jsMulFin_div_1000 _ _ hT, jsMulFin_div_1000 _ _ hT,
    jsMulFin_div_1000 _ _ hT]

/-- A simple initialized model for the C5 witness. -/
def modelC5 : Model :=
  { intercept := .fin 1, betas := (.fin 2, .fin 3, .fin 4),
    channelShares := (.fin (1 / 2), .fin (1 / 3), .fin (1 / 6)), metrics := none }

/-- C5 witness: the theorem at `modelC5` and `T = 2000`. -/
theorem predictFromTotal_apportions_witness :
    ((some modelC5 = some modelC5 ∧ (1000 : ℚ) < 2000) ∧
     predictFromTotal (some modelC5) 2000 true =
       predictFromChannelsJs (some modelC5)
         (JsNum.jsDivByFin (JsNum.jsMulFin modelC5.channelShares.1 2000) 1000)
         (JsNum.jsDivByFin (JsNum.jsMulFin modelC5.channelShares.2.1 2000) 1000)
         (JsNum.jsDivByFin (JsNum.jsMulFin modelC5.channelShares.2.2 2000) 1000) false) :=
  ⟨⟨rfl, by norm_num⟩,
   predictFromTotal_apportions (some modelC5) modelC5 rfl 2000 (by norm_num)⟩

/-- C6: each of the three prediction functions fails with the
model-not-initialized error on an empty Model Cache, for every input —
an `Except.error` is returned, never a fabricated prediction value. -/
theorem predict_requires_initialized_model :
    (∀ (tv radio newspaper : ℚ) (d : Bool),
      predictFromChannels none tv radio newspaper d = .error .modelNotInitialized) ∧
    (∀ (T : ℚ) (d : Bool), predictFromTotal none T d = .error .modelNotInitialized) ∧
    (∀ (ch : Channel) (amount : ℚ) (d : Bool),
      predictSingleChannel none ch amount d = .error .modelNotInitialized) :=
  ⟨fun _ _ _ _ => rfl, fun _ _ => rfl, fun _ _ _ => rfl⟩

/-- C7: when the loaded artifact is truthy-marked `removed` and the CSV
dataset fits successfully, initialization does not surface the
artifact-removed error: the throw at line 108 is caught by the
catch at line 155 and `initModel` returns the freshly fitted model. -/
theorem initModel_removed_falls_back (art : JsVal) (csv : String)
    (hrm : (jsTruthy art && jsTruthyOpt (jsGet art "removed")) = true)
    (hfit : (fitFromText csv).isOk = true) :
    initModel none (some art) (some csv) = fitFromText csv ∧
    (initModel none (some art) (some csv)).isOk = true := by
  have hadopt : adoptArtifact art (some csv) = none := by
    simp only [adoptArtifact, hrm, if_true]
  have h1 : initModel none (some art) (some csv) = fitFromText csv := by
    show (match adoptArtifact art (some csv) with
      | some m => Except.ok m
      | none => fitFromFetch (some csv)) = fitFromText csv
    rw [hadopt]
    rfl
  exact ⟨h1, h1 ▸ hfit⟩

/-- An artifact document marked `{"removed": true}`. -/
def artC7 : JsVal := .obj [("removed", .boolV true)]

/-- A valid 10-row CSV (`sales = 1 + 2·tv + 3·radio + 4·news`). -/
def csvC7 : String :=
  "TV,Radio,Newspaper,Sales\n1,2,3,21\n2,1,4,24\n3,5,2,30\n4,2,1,19\n5,3,3,32\n6,1,2,24\n7,4,1,31\n8,2,5,43\n9,6,2,45\n10,3,4,46"

set_option maxRecDepth 100000 in
/-- C7 witness: the theorem at the concrete removed artifact `artC7`
and dataset `csvC7`. -/
theorem initModel_removed_falls_back_witness :
    (((jsTruthy artC7 && jsTruthyOpt (jsGet artC7 "removed")) = true) ∧
      (fitFromText csvC7).isOk = true) ∧
    (initModel none (some artC7) (some csvC7) = fitFromText csvC7 ∧
      (initModel none (some artC7) (some csvC7)).isOk = true) :=
  ⟨⟨by decide, by decide⟩, initModel_removed_falls_back artC7 csvC7 (by decide) (by decide)⟩

/-- A `linear` metrics sub-object that *does* carry a mean-sales value
under all three recognised spellings. -/
def linC9 : JsVal := .obj [("r2", .num (.fin (9 / 10))), ("mean_sales", .num (.fin 5)),
  ("mean_sales_test", .num (.fin 5)), ("meanSales", .num (.fin 5))]

/-- An artifact whose metrics payload nests everything under `linear`. -/
def jsonC9 : JsVal := .obj [("metrics", .obj [("linear", linC9)])]

/-- C9 counterexample: on `jsonC9` the linear branch is taken (`r2`
does come from `linear`), the `linear` sub-object carries a mean-sales
value, yet the normalized `meanSales` is `null` — the adapter reads
`meanSales` only from root-level keys and never falls back *from* (or
reads) the `linear` sub-object for it. -/
theorem normalizedMetrics_meanSales_counterexample :
    (normalizedMetricsOf jsonC9).map Metrics.meanSales = some none ∧
    (normalizedMetricsOf jsonC9).map Metrics.r2 = some (some (.fin (9 / 10))) ∧
    (jsGet linC9 "meanSales").isSome = true :=
  ⟨by decide, by decide, by decide⟩

/-- C9 amended: when the metrics payload is truthy and has a truthy
`linear` key, normalization takes the linear branch with: `r2`, `rmse`,
`mae` only from `linear` (null when absent there, no root fallback);
`rel_rmse_pct`, `precision`, `recall`, `f1` from `linear` with
root-level fallback; and `meanSales` only from the root-level keys
`mean_sales`/`mean_sales_test`/`meanSales`, never from `linear`. -/
theorem normalizedMetrics_linear_branch (json mraw l : JsVal)
    (hm : jsGet json "metrics" = some mraw) (hmt : jsTruthy mraw = true)
    (hl : jsGet mraw "linear" = some l) (hlt : jsTruthy l = true) :
    normalizedMetricsOf json = some (linearNormalized mraw l) ∧
    (linearNormalized mraw l).r2 = metricField (jsGet l "r2") ∧
    (linearNormalized mraw l).rmse = metricField (jsGet l "rmse") ∧
    (linearNormalized mraw l).mae = metricField (jsGet l "mae") ∧
    (linearNormalized mraw l).meanSales = metricField (jsCoalesce (jsGet mraw "mean_sales")
      (jsCoalesce (jsGet mraw "mean_sales_test") (jsGet mraw "meanSales"))) ∧
    (linearNormalized mraw l).rel_rmse_pct = metricField (jsCoalesce (jsGet l "rel_rmse_pct")
      (jsCoalesce (jsGet l "rel_rmse_pct") (jsGet mraw "rel_rmse_pct"))) ∧
    (linearNormalized mraw l).precision
      = metricField (jsCoalesce (jsGet l "precision") (jsGet mraw "precision")) ∧
    (linearNormalized mraw l).«recall»
      = metricField (jsCoalesce (jsGet l "recall") (jsGet mraw "recall")) ∧
    (linearNormalized mraw l).f1
      = metricField (jsCoalesce (jsGet l "f1") (jsGet mraw "f1")) := by
  have hnn : isNullish (some mraw) = false := by
    cases mraw with
    | null => simp [jsTruthy] at hmt
    | boolV b => rfl
    | num x => rfl
    | strV s => rfl
    | arr xs => rfl
    | obj fields => rfl
  refine ⟨?_, rfl, rfl, rfl, rfl, rfl, rfl, rfl, rfl⟩
  rw [normalizedMetricsOf, hm]
  rw [show jsCoalesce (some mraw) (some JsVal.null) = some mraw from by
    simp [jsCoalesce, hnn]]
  dsimp only
  rw [hmt, if_pos rfl, hl]
  dsimp only
  rw [hlt, if_pos rfl]

/-- A second nested-metrics artifact (root-level mean plus linear
values) for the C9 witness. -/
def linC9w : JsVal := .obj [("r2", .num (.fin (4 / 5))), ("rmse", .num (.fin 2))]

/-- The metrics payload of the C9 witness artifact. -/
def mrawC9w : JsVal := .obj [("linear", linC9w), ("mean_sales", .num (.fin 50)),
  ("precision", .num (.fin (3 / 4)))]

/-- The C9 witness artifact document. -/
def jsonC9w : JsVal := .obj [("metrics", mrawC9w)]

/-- C9 witness: the amended theorem at the concrete artifact `jsonC9w`. -/
theorem normalizedMetrics_linear_branch_witness :
    (jsGet jsonC9w "metrics" = some mrawC9w ∧ jsTruthy mrawC9w = true ∧
      jsGet mrawC9w "linear" = some linC9w ∧ jsTruthy linC9w = true) ∧
    (normalizedMetricsOf jsonC9w = some (linearNormalized mrawC9w linC9w) ∧
     (linearNormalized mrawC9w linC9w).r2 = metricField (jsGet linC9w "r2") ∧
     (linearNormalized mrawC9w linC9w).rmse = metricField (jsGet linC9w "rmse") ∧
     (linearNormalized mrawC9w linC9w).mae = metricField (jsGet linC9w "mae") ∧
     (linearNormalized mrawC9w linC9w).meanSales
       = metricField (jsCoalesce (jsGet mrawC9w "mean_sales")
           (jsCoalesce (jsGet mrawC9w "mean_sales_test") (jsGet mrawC9w "meanSales"))) ∧
     (linearNormalized mrawC9w linC9w).rel_rmse_pct
       = metricField (jsCoalesce (jsGet linC9w "rel_rmse_pct")
           (jsCoalesce (jsGet linC9w "rel_rmse_pct") (jsGet mrawC9w "rel_rmse_pct"))) ∧
     (linearNormalized mrawC9w linC9w).precision
       = metricField (jsCoalesce (jsGet linC9w "precision") (jsGet mrawC9w "precision")) ∧
     (linearNormalized mrawC9w linC9w).«recall»
       = metricField (jsCoalesce (jsGet linC9w "recall") (jsGet mrawC9w "recall")) ∧
     (linearNormalized mrawC9w linC9w).f1
       = metricField (jsCoalesce (jsGet linC9w "f1") (jsGet mrawC9w "f1"))) :=
  ⟨⟨rfl, by decide, rfl, by decide⟩,
   normalizedMetrics_linear_branch jsonC9w mrawC9w linC9w rfl (by decide)
     rfl (by decide)⟩

/-- A model whose metrics record is absent. -/
def modelC10 : Model :=
  { intercept := .fin 1, betas := (.fin 1, .fin 1, .fin 1),
    channelShares := (.fin 1, .fin 0, .fin 0), metrics := none }

/-- C10: `getModelMetrics` raises the model-not-initialized error
exactly on the empty cache; on any populated cache it succeeds, and
when the model's metrics record is absent it returns the canonical
record with `r2`, `rmse`, `mae`, `meanSales`, `rel_rmse_pct` all null
rather than raising or returning nothing. -/
theorem getModelMetrics_total (m : Model) (hm : m.metrics = none) :
    getModelMetrics none = .error .modelNotInitialized ∧
    (∀ m2 : Model, (getModelMetrics (some m2)).isOk = true) ∧
    getModelMetrics (some m) = .ok defaultMetrics ∧
    defaultMetrics.r2 = none ∧ defaultMetrics.rmse = none ∧ defaultMetrics.mae = none ∧
    defaultMetrics.meanSales = none ∧ defaultMetrics.rel_rmse_pct = none := by
  refine ⟨rfl, fun m2 => rfl, ?_, rfl, rfl, rfl, rfl, rfl⟩
  show Except.ok (m.metrics.getD defaultMetrics) = .ok defaultMetrics
  rw [hm]
  rfl

/-- C10 witness: the theorem at the concrete metrics-less `modelC10`. -/
theorem getModelMetrics_total_witness :
    modelC10.metrics = none ∧
    (getModelMetrics none = .error .modelNotInitialized ∧
     (∀ m2 : Model, (getModelMetrics (some m2)).isOk = true) ∧
     getModelMetrics (some modelC10) = .ok defaultMetrics ∧
     defaultMetrics.r2 = none ∧ defaultMetrics.rmse = none ∧ defaultMetrics.mae = none ∧
     defaultMetrics.meanSales = none ∧ defaultMetrics.rel_rmse_pct = none) :=
  ⟨rfl, getModelMetrics_total modelC10 rfl⟩
